import Mathlib

/-!
Verification of the ai_research_agent backend against its specification.

The JavaScript sources are shallowly embedded as Lean definitions:
  - JS strings become String, JS arrays become List,
  - JS numbers appearing in scores/distances become exact rationals,
  - fallible external services (ChromaDB, arXiv/PubMed HTTP, the LLM chat
    endpoint) become explicit oracle parameters of type Except,
  - thrown exceptions become Except.error values.
Each definition mirrors one function of the source tree (paperFetcher.js,
aiAgent.js, the extractive summarizer, and the /api/search route of
backend/index.js).
-/

set_option maxRecDepth 8000
set_option linter.unusedVariables false

deriving instance DecidableEq for Except

namespace AiResearchAgent

/-- Whitespace test used when modelling JS String.prototype.trim. -/
def isWs (c : Char) : Bool := c.isWhitespace

/-- Model of JS String.prototype.trim on the underlying character list:
drop whitespace from the front, then from the back. -/
def jsTrimL (cs : List Char) : List Char :=
  ((cs.dropWhile isWs).reverse.dropWhile isWs).reverse

/-- Model of JS String.prototype.trim. -/
def jsTrim (s : String) : String := String.mk (jsTrimL s.data)

/-- Model of JS String.prototype.toLowerCase (ASCII fragment). -/
def jsToLower (s : String) : String := String.mk (s.data.map Char.toLower)

/-- Normalized title used by the de-duplication step of /api/search:
title.toLowerCase().trim(). -/
def normTitle (s : String) : String := jsTrim (jsToLower s)

/-- Model of JS Array.prototype.join(" "). -/
def joinSp : List String → String
  | [] => ""
  | [s] => s
  | s :: rest => s ++ " " ++ joinSp rest

/-- Word count as computed by sentence.split(" ").length in JS:
the number of space characters plus one. -/
def wordCount (s : String) : Nat := s.data.countP (fun c => c = ' ') + 1

/-- Sentence terminator class of the regex [^.!?]+[.!?]+ used by the
extractive summarizer. -/
def isTerm (c : Char) : Bool := c = '.' || c = '!' || c = '?'

/-- State machine equivalent to repeatedly matching the global regex
[^.!?]+[.!?]+ left to right: body accumulates the current run of
non-terminators, terms the following run of terminators; a match is emitted
once at least one of each has been seen and the run ends. -/
def sentsGo : List Char → List Char → List Char → List (List Char)
  | [], body, terms => if body.isEmpty || terms.isEmpty then [] else [body ++ terms]
  | c :: cs, body, terms =>
    if isTerm c then
      if body.isEmpty then sentsGo cs [] []
      else sentsGo cs body (terms ++ [c])
    else
      if terms.isEmpty then sentsGo cs (body ++ [c]) []
      else (body ++ terms) :: sentsGo cs [c] []

/-- Model of text.match(/[^.!?]+[.!?]+/g) || [] from the extractive
summarizer. -/
def sentenceList (text : String) : List String :=
  (sentsGo text.data [] []).map String.mk

/-- Scored sentence record built by extractSentences: the trimmed sentence
text, its score and its original index. -/
structure Scored where
  text : String
  score : ℚ
  index : Nat
deriving DecidableEq, Repr

/-- Scoring pass of extractSentences: each sentence at zero-based index i
receives score (sentences.length - i) + (sentence.split(" ").length / 20). -/
def scoredSentences (text : String) : List Scored :=
  let sentences := sentenceList text
  sentences.enum.map (fun p =>
    { text := jsTrim p.2
      score := ((sentences.length : ℚ) - (p.1 : ℚ)) + (wordCount p.2 : ℚ) / 20
      index := p.1 })

/-- Comparison function of the first sort in extractSentences,
(a, b) => b.score - a.score, i.e. descending by score; JS Array sort is
stable, as is List.mergeSort. -/
def scoreLe (a b : Scored) : Bool := decide (b.score ≤ a.score)

/-- Comparison function of the second sort in extractSentences,
(a, b) => a.index - b.index, i.e. ascending by original position. -/
def idxLe (a b : Scored) : Bool := decide (a.index ≤ b.index)

/-- Model of extractSentences(text, maxSentences) from the extractive
summarizer: if at most maxSentences sentences, return the text unchanged;
otherwise sort scored sentences by descending score, keep the first
maxSentences, re-sort them by original index and join their trimmed texts
with single spaces. -/
def extractSentences (text : String) (maxSentences : Nat) : String :=
  let sentences := sentenceList text
  if sentences.length ≤ maxSentences then text
  else
    let topSentences :=
      (((scoredSentences text).mergeSort scoreLe).take maxSentences).mergeSort idxLe
    joinSp (topSentences.map Scored.text)

/-- Per-document body of the local analyzeDocuments (extractive variant):
an empty (falsy) text makes the code throw, and the per-document catch
turns that into an error placeholder built from the thrown message; a
non-empty text shorter than 100 characters is returned as is; otherwise
it is passed to extractSentences with the default maxSentences = 3. -/
def summarizeLocalText (textToSummarize : String) : String :=
  if textToSummarize = "" then
    "Error generating summary: Invalid document format: no valid text found to summarize"
  else if textToSummarize.length < 100 then textToSummarize
  else extractSentences textToSummarize 3

/-- Paper record as produced by paperFetcher.js and as assembled by the
/api/search route. Cache-hit papers carry no link and a relevanceScore;
freshly fetched papers carry a link and no relevanceScore. A missing JS
field is modelled as none, a falsy empty string as the empty string. -/
structure Paper where
  title : String
  authors : List String
  summary : String
  link : Option String
  source : String
  relevanceScore : Option ℚ
deriving DecidableEq, Repr

/-- Default paper used only to state positional facts via List.getD. -/
def defaultPaper : Paper :=
  { title := "", authors := [], summary := "", link := none,
    source := "", relevanceScore := none }

/-- Text selected for summarization in aiAgent.js generateSummary:
doc.summary || doc.title || "" with JS falsiness of the empty string. -/
def textToSummarize (doc : Paper) : String :=
  if doc.summary ≠ "" then doc.summary else doc.title

/-- Outcome of the remote chat-completion call: the message content on
success, an error otherwise. The oracle stands for the OpenAI client. -/
abbrev LlmOracle := String → Except String String

/-- Model of aiAgent.js generateSummary together with a flag recording
whether the remote LLM endpoint was called. A text that is falsy or
shorter than 50 characters short-circuits: the text itself is returned
when truthy, the fixed placeholder otherwise, with no remote call. A
failing remote call is caught and replaced by an error string naming the
document title. -/
def generateSummaryT (llm : LlmOracle) (doc : Paper) : String × Bool :=
  let text := textToSummarize doc
  if text.length < 50 then
    (if text = "" then "No content available to summarize." else text, false)
  else
    match llm text with
    | .ok content => (jsTrim content, true)
    | .error _ => ("Error generating summary for \"" ++ doc.title ++ "\".", true)

/-- Summary string returned by aiAgent.js generateSummary. -/
def generateSummary (llm : LlmOracle) (doc : Paper) : String :=
  (generateSummaryT llm doc).1

/-- Model of aiAgent.js analyzeDocuments: one generateSummary per document,
fanned out by Promise.all. generateSummary never rejects (its body is a
try/catch returning a placeholder), so the outer catch of analyzeDocuments
is unreachable for array input and the result always has one summary per
document. -/
def analyzeDocuments (llm : LlmOracle) (documents : List Paper) : List String :=
  documents.map (fun doc => generateSummary llm doc)

/-- Query value of a JS request body: absent, a string, or a truthy
non-string value. -/
inductive JsVal where
  | str (s : String)
  | nonString
deriving DecidableEq, Repr

/-- Papers produced by fetchPapers for a given source filter: arXiv results
when source is all or arxiv, then PubMed results when source is all or
pubmed, concatenated in that order. Both upstream fetchers are fail-soft
and their outcomes are the two oracle lists. -/
def selectedPapers (source : String) (arxivResults pubmedResults : List Paper) :
    List Paper :=
  (if source = "all" ∨ source = "arxiv" then arxivResults else []) ++
    (if source = "all" ∨ source = "pubmed" then pubmedResults else [])

/-- Model of paperFetcher.js fetchPapers: throws (Except.error) on a
missing, non-string, falsy or too-short query, otherwise returns the
source-filtered concatenation of the two upstream result lists. -/
def fetchPapers (query : Option JsVal) (source : String)
    (arxivResults pubmedResults : List Paper) : Except String (List Paper) :=
  match query with
  | none => .error "Invalid query parameter"
  | some .nonString => .error "Invalid query parameter"
  | some (.str s) =>
    if s = "" then .error "Invalid query parameter"
    else
      let q := jsTrim s
      if q.length < 2 then .error "Query must be at least 2 characters long"
      else .ok (selectedPapers source arxivResults pubmedResults)

/-- Request body of POST /api/search. -/
structure ReqBody where
  query : Option JsVal
  source : Option String
deriving DecidableEq, Repr

/-- Model of the validateSearchInput middleware of backend/index.js: on
success it yields the trimmed query that the middleware writes back into
req.body.query; otherwise the 400 status and message it sends. -/
def validateSearchInput (b : ReqBody) : Except (Nat × String) String :=
  match b.query with
  | none => .error (400, "Query parameter is required")
  | some .nonString => .error (400, "Query must be a string")
  | some (.str s) =>
    if s = "" then .error (400, "Query parameter is required")
    else
      let q := jsTrim s
      if q.length < 2 then .error (400, "Query must be at least 2 characters long")
      else if q.length > 200 then .error (400, "Query too long (maximum 200 characters)")
      else
        match b.source with
        | some src =>
          if src ≠ "" ∧ src ∉ (["all", "arxiv", "pubmed"] : List String) then
            .error (400, "Invalid source. Must be 'all', 'arxiv', or 'pubmed'")
          else .ok q
        | none => .ok q

/-- Source argument passed to fetchPapers by the route handler: the body
field when present (even when empty), the fetchPapers default otherwise. -/
def effectiveSource (b : ReqBody) : String :=
  match b.source with
  | none => "all"
  | some s => s

/-- Cache entry returned by the ChromaDB query: stored metadata, the
stored summary document and the reported distance. -/
structure CacheHit where
  title : String
  authors : List String
  source : String
  document : String
  distance : ℚ
deriving DecidableEq, Repr

/-- Rounding performed by JS Number.prototype.toFixed(2): the nearest
multiple of 1/100, ties toward the larger value. -/
def round2 (q : ℚ) : ℚ := (⌊100 * q + 1 / 2⌋ : ℚ) / 100

/-- Cache-hit mapping of the route handler: a ChromaDB result row becomes a
response paper whose summary is the stored document and whose
relevanceScore is (1 - distance).toFixed(2); no link field is set. -/
def cacheHitToPaper (h : CacheHit) : Paper :=
  { title := h.title, authors := h.authors, summary := h.document,
    link := none, source := h.source,
    relevanceScore := some (round2 (1 - h.distance)) }

/-- Response body of a successful /api/search request. -/
structure SearchResponse where
  papers : List Paper
  summaries : List String
  total : Nat
  fromCache : Nat
  newlyFetched : Nat
  chromaStatus : String
deriving DecidableEq, Repr

/-- Cache hits visible to the route handler: the rows returned by the
ChromaDB query when the client is initialized and the query succeeds, and
the empty list otherwise (the query error is caught and swallowed). -/
def cacheHits (chromaInitialized : Bool)
    (cacheQueryResult : Except Unit (List CacheHit)) : List CacheHit :=
  if chromaInitialized then
    match cacheQueryResult with
    | .ok h => h
    | .error _ => []
  else []

/-- De-duplication step of the route handler: keep a fetched paper only
when its normalized title is not among the normalized titles of the
already-relevant papers. -/
def newPapersOf (relevantPapers fetchedPapers : List Paper) : List Paper :=
  let existingPaperTitles := relevantPapers.map (fun p => normTitle p.title)
  fetchedPapers.filter
    (fun fp => !(existingPaperTitles.contains (normTitle fp.title)))

/-- Search pipeline of the route handler after validation and fetch:
collect cache hits (empty when ChromaDB is uninitialized or its query
fails), de-duplicate the fetched papers against the normalized cache-hit
titles, summarize the net-new papers, and concatenate cache hits with the
new papers, keeping summaries positionally aligned. -/
def runSearch (chromaInitialized : Bool)
    (cacheQueryResult : Except Unit (List CacheHit))
    (fetchedPapers : List Paper) (llm : LlmOracle) : SearchResponse :=
  let hits := cacheHits chromaInitialized cacheQueryResult
  let relevantPapers := hits.map cacheHitToPaper
  let relevantSummaries := hits.map CacheHit.document
  let newPapers := newPapersOf relevantPapers fetchedPapers
  let newSummaries :=
    if 0 < newPapers.length then analyzeDocuments llm newPapers else []
  { papers := relevantPapers ++ newPapers
    summaries := relevantSummaries ++ newSummaries
    total := (relevantPapers ++ newPapers).length
    fromCache := relevantPapers.length
    newlyFetched := newPapers.length
    chromaStatus := if chromaInitialized then "connected" else "disconnected" }

/-- HTTP outcome of POST /api/search. -/
inductive Response where
  | ok (sr : SearchResponse)
  | clientError (status : Nat) (msg : String)
  | serverError (msg : String)
deriving DecidableEq, Repr

/-- External calls a request can perform, in program order. -/
inductive ExtCall where
  | cacheLookup
  | externalFetch
  | llmSummarize
  | cacheInsert
deriving DecidableEq, Repr

/-- Model of the whole POST /api/search route of backend/index.js:
rate limiting aside, the request passes validateSearchInput, then the
handler attempts the cache lookup (only when ChromaDB is initialized),
fetches papers, summarizes the de-duplicated new papers and attempts the
cache insert. The cacheAddResult oracle records that a failing insert is
swallowed: it does not occur in the response at all. The second component
lists the external calls performed. -/
def searchEndpoint (b : ReqBody) (chromaInitialized : Bool)
    (cacheQueryResult : Except Unit (List CacheHit))
    (cacheAddResult : Except Unit Unit)
    (arxivResults pubmedResults : List Paper) (llm : LlmOracle) :
    Response × List ExtCall :=
  match validateSearchInput b with
  | .error e => (.clientError e.1 e.2, [])
  | .ok q =>
    match fetchPapers (some (.str q)) (effectiveSource b) arxivResults pubmedResults with
    | .error msg =>
      (.serverError msg,
        (if chromaInitialized then [.cacheLookup] else []) ++ [.externalFetch])
    | .ok fetched =>
      let sr := runSearch chromaInitialized cacheQueryResult fetched llm
      (.ok sr,
        (if chromaInitialized then [.cacheLookup] else []) ++ [.externalFetch] ++
          (if 0 < sr.newlyFetched then [.llmSummarize] else []) ++
          (if 0 < sr.newlyFetched ∧ chromaInitialized then [.cacheInsert] else []))

/-! Concrete instances used in witnesses and counterexamples. -/

/-- Predicate distinguishing the 400 responses of the validator. -/
def Response.isClientError : Response → Bool
  | .clientError _ _ => true
  | _ => false

/-- Default cache hit used only to state positional facts via List.getD. -/
def defaultCacheHit : CacheHit :=
  { title := "", authors := [], source := "", document := "", distance := 0 }

/-- Text of exactly 100 characters: four sentences of 24 letters and one
period each. -/
def sampleLongText : String :=
  String.mk (List.replicate 24 'a' ++ ['.'] ++ (List.replicate 24 'b' ++ ['.'])
    ++ (List.replicate 24 'c' ++ ['.']) ++ (List.replicate 24 'd' ++ ['.']))

/-- Short text with five sentences, used to exercise the top-3 selection. -/
def sampleFiveSentences : String :=
  "One two. Three four. Five six. Seven eight. Nine ten."

/-- Document with no usable text: summary and title both empty. -/
def emptyDoc : Paper :=
  { title := "", authors := [], summary := "", link := none,
    source := "arxiv", relevanceScore := none }

/-- Document whose abstract exceeds the 50-character threshold. -/
def longDoc : Paper :=
  { title := "Long Paper", authors := ["A"],
    summary := "This abstract definitely contains far more than fifty characters of text.",
    link := some "http://x", source := "arxiv", relevanceScore := none }

/-- Document whose abstract is below the 50-character threshold. -/
def shortDoc : Paper :=
  { title := "Short Paper", authors := ["B"], summary := "Tiny abstract.",
    link := some "http://y", source := "pubmed", relevanceScore := none }

/-- Cache hit whose stored title collides with a fetched paper title. -/
def dupHit : CacheHit :=
  { title := "Deep Learning", authors := ["A"], source := "arxiv",
    document := "stored summary", distance := 0 }

/-- Fetched paper whose normalized title equals the one of dupHit. -/
def dupFetched : Paper :=
  { title := " deep learning ", authors := [], summary := "fresh abstract",
    link := some "http://z", source := "arxiv", relevanceScore := none }

/-- Cache hit whose reported distance exceeds 1. -/
def farHit : CacheHit :=
  { title := "T", authors := [], source := "arxiv",
    document := "doc", distance := 2 }

/-- Cache hit with an in-range distance. -/
def midHit : CacheHit :=
  { title := "T", authors := [], source := "arxiv",
    document := "doc", distance := 1/2 }

/-- Raw query of 201 characters whose trimmed form has length 2. -/
def longPaddedQuery : String := "aa" ++ String.mk (List.replicate 199 ' ')

/-- Request body carrying the padded 201-character query. -/
def longPaddedBody : ReqBody :=
  { query := some (.str longPaddedQuery), source := none }

/-- Valid request body used by witnesses. -/
def validBody : ReqBody :=
  { query := some (.str "quantum computing"), source := some "all" }

/-- LLM oracle that always succeeds with a fixed completion. -/
def llmOk : LlmOracle := fun _ => .ok " A detailed generated summary. "

/-- LLM oracle that always fails. -/
def llmDown : LlmOracle := fun _ => .error "service unavailable"

/-! General list and string lemmas used to reason about the embedding. -/

lemma head?_dropWhile_false {α : Type} {p : α → Bool} :
    ∀ (l : List α) (x : α), (l.dropWhile p).head? = some x → p x = false := by
  intro l
  induction l with
  | nil => intro x h; simp at h
  | cons a t ih =>
    intro x h
    by_cases hpa : p a
    · rw [List.dropWhile_cons_of_pos hpa] at h
      exact ih x h
    · rw [List.dropWhile_cons_of_neg hpa] at h
      simp at h
      simpa [← h] using hpa

lemma dropWhile_eq_self_of_head? {α : Type} {p : α → Bool} {l : List α}
    (h : ∀ x, l.head? = some x → p x = false) : l.dropWhile p = l := by
  cases l with
  | nil => rfl
  | cons a t =>
    have := h a rfl
    simp [List.dropWhile_cons, this]

lemma getLast?_dropWhile_eq {α : Type} {p : α → Bool} :
    ∀ l : List α, l.dropWhile p = [] ∨ (l.dropWhile p).getLast? = l.getLast? := by
  intro l
  induction l with
  | nil => exact Or.inl rfl
  | cons a t ih =>
    by_cases hpa : p a
    · rw [List.dropWhile_cons_of_pos hpa]
      by_cases hdt : t.dropWhile p = []
      · exact Or.inl hdt
      · right
        have h : (t.dropWhile p).getLast? = t.getLast? := (ih.resolve_left hdt)
        rw [h]
        have ht : t ≠ [] := by
          intro hnil
          rw [hnil] at hdt
          exact hdt rfl
        cases t with
        | nil => exact absurd rfl ht
        | cons b t2 => simp [List.getLast?_cons_cons]
    · rw [List.dropWhile_cons_of_neg hpa]
      exact Or.inr rfl

lemma head?_jsTrimL_false (cs : List Char) :
    ∀ x, (jsTrimL cs).head? = some x → isWs x = false := by
  intro x h
  unfold jsTrimL at h
  rw [List.head?_reverse] at h
  rcases @getLast?_dropWhile_eq Char isWs ((cs.dropWhile isWs).reverse) with hnil | heq
  · rw [hnil] at h; simp at h
  · rw [heq, List.getLast?_reverse] at h
    exact head?_dropWhile_false _ x h

lemma getLast?_jsTrimL_false (cs : List Char) :
    ∀ x, (jsTrimL cs).getLast? = some x → isWs x = false := by
  intro x h
  unfold jsTrimL at h
  rw [List.getLast?_reverse] at h
  exact head?_dropWhile_false _ x h

lemma jsTrimL_idem (cs : List Char) : jsTrimL (jsTrimL cs) = jsTrimL cs := by
  have h1 : (jsTrimL cs).dropWhile isWs = jsTrimL cs :=
    dropWhile_eq_self_of_head? (head?_jsTrimL_false cs)
  have h2 : (jsTrimL cs).reverse.dropWhile isWs = (jsTrimL cs).reverse := by
    apply dropWhile_eq_self_of_head?
    intro x hx
    rw [List.head?_reverse] at hx
    exact getLast?_jsTrimL_false cs x hx
  show ((((jsTrimL cs).dropWhile isWs).reverse).dropWhile isWs).reverse = jsTrimL cs
  rw [h1, h2, List.reverse_reverse]

lemma jsTrim_idem (s : String) : jsTrim (jsTrim s) = jsTrim s :=
  congrArg String.mk (jsTrimL_idem s.data)

lemma getD_map_of_lt {α β : Type} (f : α → β) (l : List α) (i : Nat)
    (d : α) (d' : β) (h : i < l.length) :
    (l.map f).getD i d' = f (l.getD i d) := by
  rw [List.getD_eq_getElem?_getD, List.getD_eq_getElem?_getD, List.getElem?_map,
    List.getElem?_eq_getElem h]
  simp

lemma newSummaries_eq (llm : LlmOracle) (newPapers : List Paper) :
    (if 0 < newPapers.length then analyzeDocuments llm newPapers else []) =
      newPapers.map (fun p => generateSummary llm p) := by
  cases newPapers with
  | nil => rfl
  | cons a t =>
    have hpos : 0 < (a :: t).length := Nat.succ_pos t.length
    rw [if_pos hpos]
    rfl

/-! Projection lemmas for runSearch, mirroring the local variables of the
route handler. -/

lemma runSearch_papers (init : Bool) (cq : Except Unit (List CacheHit))
    (fetched : List Paper) (llm : LlmOracle) :
    (runSearch init cq fetched llm).papers =
      (cacheHits init cq).map cacheHitToPaper ++
        newPapersOf ((cacheHits init cq).map cacheHitToPaper) fetched := rfl

lemma runSearch_summaries (init : Bool) (cq : Except Unit (List CacheHit))
    (fetched : List Paper) (llm : LlmOracle) :
    (runSearch init cq fetched llm).summaries =
      (cacheHits init cq).map CacheHit.document ++
        (if 0 < (newPapersOf ((cacheHits init cq).map cacheHitToPaper) fetched).length
          then analyzeDocuments llm (newPapersOf ((cacheHits init cq).map cacheHitToPaper) fetched)
          else []) := rfl

lemma runSearch_fromCache (init : Bool) (cq : Except Unit (List CacheHit))
    (fetched : List Paper) (llm : LlmOracle) :
    (runSearch init cq fetched llm).fromCache =
      ((cacheHits init cq).map cacheHitToPaper).length := rfl

lemma runSearch_newlyFetched (init : Bool) (cq : Except Unit (List CacheHit))
    (fetched : List Paper) (llm : LlmOracle) :
    (runSearch init cq fetched llm).newlyFetched =
      (newPapersOf ((cacheHits init cq).map cacheHitToPaper) fetched).length := rfl

/-! Bridge between the validator and fetchPapers. -/

lemma validate_ok_facts {b : ReqBody} {q : String}
    (h : validateSearchInput b = .ok q) :
    ∃ s, b.query = some (.str s) ∧ q = jsTrim s ∧ 2 ≤ q.length ∧ q.length ≤ 200 := by
  obtain ⟨bq, bs⟩ := b
  cases bq with
  | none => simp [validateSearchInput] at h
  | some v =>
    cases v with
    | nonString => simp [validateSearchInput] at h
    | str s =>
      refine ⟨s, rfl, ?_⟩
      cases bs with
      | none =>
        simp only [validateSearchInput] at h
        split_ifs at h with h1 h2 h3
        have heq : jsTrim s = q := by injection h
        refine ⟨heq.symm, ?_, ?_⟩ <;> rw [← heq] <;> omega
      | some src =>
        simp only [validateSearchInput] at h
        split_ifs at h with h1 h2 h3 h4
        have heq : jsTrim s = q := by injection h
        refine ⟨heq.symm, ?_, ?_⟩ <;> rw [← heq] <;> omega

lemma fetchPapers_ok_of_trimmed {q : String} (h2 : 2 ≤ q.length)
    (hidem : jsTrim q = q) (src : String) (ax pm : List Paper) :
    fetchPapers (some (.str q)) src ax pm = .ok (selectedPapers src ax pm) := by
  have hne : q ≠ "" := by
    intro hq
    rw [hq] at h2
    simp [String.length] at h2
  simp only [fetchPapers]
  rw [if_neg hne, hidem, if_neg (by omega)]

lemma fetchPapers_ok_of_validate {b : ReqBody} {q : String}
    (h : validateSearchInput b = .ok q) (src : String) (ax pm : List Paper) :
    fetchPapers (some (.str q)) src ax pm = .ok (selectedPapers src ax pm) := by
  obtain ⟨s, _, hq, h2, _⟩ := validate_ok_facts h
  exact fetchPapers_ok_of_trimmed h2 (by rw [hq]; exact jsTrim_idem s) src ax pm

/-! Lemmas about the extractive summarizer. -/

lemma scoreLe_trans : ∀ a b c : Scored,
    scoreLe a b = true → scoreLe b c = true → scoreLe a c = true := by
  intro a b c hab hbc
  exact decide_eq_true (le_trans (of_decide_eq_true hbc) (of_decide_eq_true hab))

lemma scoreLe_total : ∀ a b : Scored, (scoreLe a b || scoreLe b a) = true := by
  intro a b
  rcases le_total a.score b.score with h | h
  · simp [scoreLe, h]
  · simp [scoreLe, h]

lemma idxLe_trans : ∀ a b c : Scored,
    idxLe a b = true → idxLe b c = true → idxLe a c = true := by
  intro a b c hab hbc
  exact decide_eq_true (le_trans (of_decide_eq_true hab) (of_decide_eq_true hbc))

lemma idxLe_total : ∀ a b : Scored, (idxLe a b || idxLe b a) = true := by
  intro a b
  rcases le_total a.index b.index with h | h
  · simp [idxLe, h]
  · simp [idxLe, h]

lemma scoredSentences_length (text : String) :
    (scoredSentences text).length = (sentenceList text).length := by
  simp [scoredSentences]

/-- Characterization of extractSentences on texts with more than three
sentences: the scored sentences split into a kept part of size three whose
scores dominate every dropped sentence, and the output is the kept part
re-ordered by original index and joined with single spaces. -/
lemma extractSentences_top3 (text : String) (h : 3 < (sentenceList text).length) :
    ∃ kept dropped ordered : List Scored,
      (scoredSentences text).Perm (kept ++ dropped) ∧
      kept.length = 3 ∧
      (∀ a ∈ kept, ∀ b ∈ dropped, b.score ≤ a.score) ∧
      ordered.Perm kept ∧
      List.Pairwise (fun a b : Scored => a.index ≤ b.index) ordered ∧
      extractSentences text 3 = joinSp (ordered.map Scored.text) := by
  have hslen : (scoredSentences text).length = (sentenceList text).length :=
    scoredSentences_length text
  have hperm : ((scoredSentences text).mergeSort scoreLe).Perm (scoredSentences text) :=
    List.mergeSort_perm (scoredSentences text) scoreLe
  have hsortedlen : ((scoredSentences text).mergeSort scoreLe).length =
      (scoredSentences text).length := hperm.length_eq
  refine ⟨((scoredSentences text).mergeSort scoreLe).take 3,
    ((scoredSentences text).mergeSort scoreLe).drop 3,
    (((scoredSentences text).mergeSort scoreLe).take 3).mergeSort idxLe,
    ?_, ?_, ?_, ?_, ?_, ?_⟩
  · rw [List.take_append_drop]
    exact hperm.symm
  · rw [List.length_take, hsortedlen, hslen]
    omega
  · have hpw : List.Pairwise (fun a b => scoreLe a b = true)
        ((scoredSentences text).mergeSort scoreLe) :=
      List.sorted_mergeSort scoreLe_trans scoreLe_total (scoredSentences text)
    have hpw2 : List.Pairwise (fun a b => scoreLe a b = true)
        (((scoredSentences text).mergeSort scoreLe).take 3 ++
          ((scoredSentences text).mergeSort scoreLe).drop 3) := by
      rw [List.take_append_drop]
      exact hpw
    intro a ha b hb
    exact of_decide_eq_true ((List.pairwise_append.mp hpw2).2.2 a ha b hb)
  · exact List.mergeSort_perm _ idxLe
  · have hpw := List.sorted_mergeSort idxLe_trans idxLe_total
      (((scoredSentences text).mergeSort scoreLe).take 3)
    exact hpw.imp (fun hx => of_decide_eq_true hx)
  · simp only [extractSentences]
    rw [if_neg (by omega)]

/-- Trimmed sentence texts carried by the scored records. -/
lemma scoredSentences_map_text (text : String) :
    (scoredSentences text).map Scored.text = (sentenceList text).map jsTrim := by
  simp only [scoredSentences, List.map_map]
  have : (Scored.text ∘ fun p : Nat × String =>
      ({ text := jsTrim p.2
         score := (((sentenceList text).length : ℚ) - (p.1 : ℚ)) + (wordCount p.2 : ℚ) / 20
         index := p.1 } : Scored)) = fun p : Nat × String => jsTrim p.2 := rfl
  rw [this]
  have h2 : (fun p : Nat × String => jsTrim p.2) = jsTrim ∘ Prod.snd := rfl
  rw [h2, ← List.map_map, List.enum_map_snd]

lemma joinSp_three (a b c : String) :
    joinSp [a, b, c] = a ++ " " ++ (b ++ " " ++ c) := rfl

lemma joinSp_three_length (a b c : String) :
    (joinSp [a, b, c]).length = a.length + b.length + c.length + 2 := by
  rw [joinSp_three]
  simp only [String.length_append]
  have hsp : (" " : String).length = 1 := rfl
  rw [hsp]
  omega

/-! Lemmas about the endpoint pipeline. -/

lemma validateSearchInput_error_of_len {bs : Option String} {s : String}
    (hlen : (jsTrim s).length < 2 ∨ 200 < (jsTrim s).length) :
    ∃ msg, validateSearchInput ⟨some (.str s), bs⟩ = .error (400, msg) := by
  by_cases hs : s = ""
  · exact ⟨"Query parameter is required", by
      simp only [validateSearchInput]
      rw [if_pos hs]⟩
  rcases hlen with h | h
  · exact ⟨"Query must be at least 2 characters long", by
      simp only [validateSearchInput]
      rw [if_neg hs, if_pos h]⟩
  · exact ⟨"Query too long (maximum 200 characters)", by
      simp only [validateSearchInput]
      rw [if_neg hs, if_neg (by omega), if_pos h]⟩

lemma cacheHits_empty {init : Bool} {cq : Except Unit (List CacheHit)}
    (h : init = false ∨ cq = .error ()) : cacheHits init cq = [] := by
  rcases h with h | h
  · simp [cacheHits, h]
  · cases init <;> simp [cacheHits, h]

lemma newPapersOf_nil (fetched : List Paper) : newPapersOf [] fetched = fetched := by
  simp only [newPapersOf, List.map_nil]
  apply List.filter_eq_self.mpr
  intro a _
  rfl

lemma searchEndpoint_ok_of_validate {b : ReqBody} {q : String}
    (hv : validateSearchInput b = .ok q)
    (init : Bool) (cq : Except Unit (List CacheHit)) (ca : Except Unit Unit)
    (ax pm : List Paper) (llm : LlmOracle) :
    (searchEndpoint b init cq ca ax pm llm).1 =
      .ok (runSearch init cq (selectedPapers (effectiveSource b) ax pm) llm) := by
  simp only [searchEndpoint, hv, fetchPapers_ok_of_validate hv (effectiveSource b) ax pm]

/-! Claim theorems. -/

/-- C5, counterexample: the claim states that a text of 100 characters or
fewer is returned unchanged, but the length guard of the local summarizer
is strict (length < 100): sampleLongText has exactly 100 characters and
four sentences, and the summarizer drops one sentence and re-joins the
rest, so the output differs from the input. -/
theorem claim_C5_counterexample :
    sampleLongText.length = 100 ∧
    summarizeLocalText sampleLongText ≠ sampleLongText := by
  have hlen : sampleLongText.length = 100 := by decide
  refine ⟨hlen, ?_⟩
  have hns : (sentenceList sampleLongText).length = 4 := by decide
  have hred : summarizeLocalText sampleLongText = extractSentences sampleLongText 3 := by
    unfold summarizeLocalText
    rw [if_neg (by decide), if_neg (by omega)]
  obtain ⟨kept, dropped, ordered, hperm, hk3, _, hop, _, heq⟩ :=
    extractSentences_top3 sampleLongText (by omega)
  have hot : ∀ w ∈ ordered, w.text.length = 25 := by
    intro w hw
    have hwk : w ∈ kept := hop.mem_iff.mp hw
    have hws : w ∈ scoredSentences sampleLongText :=
      hperm.mem_iff.mpr (List.mem_append_left dropped hwk)
    have htxt : w.text ∈ (scoredSentences sampleLongText).map Scored.text :=
      List.mem_map_of_mem Scored.text hws
    rw [scoredSentences_map_text] at htxt
    have hall : ∀ s ∈ (sentenceList sampleLongText).map jsTrim, s.length = 25 := by decide
    exact hall _ htxt
  have hol : ordered.length = 3 := hop.length_eq.trans hk3
  obtain ⟨x, y, z, hxyz⟩ := List.length_eq_three.mp hol
  have hxm : x ∈ ordered := by rw [hxyz]; simp
  have hym : y ∈ ordered := by rw [hxyz]; simp
  have hzm : z ∈ ordered := by rw [hxyz]; simp
  have hlen77 : (extractSentences sampleLongText 3).length = 77 := by
    rw [heq, hxyz]
    simp only [List.map_cons, List.map_nil]
    rw [joinSp_three_length, hot x hxm, hot y hym, hot z hzm]
  intro hcontra
  rw [hred] at hcontra
  have hc := congrArg String.length hcontra
  rw [hlen77, hlen] at hc
  exact absurd hc (by omega)

/-- C5 (amended): the extractive summarizer returns a non-empty text
unchanged when it has at most 3 sentences, and when it has strictly fewer
than 100 characters (the guard in the code is length < 100, so a text of
exactly 100 characters is summarized); the empty text takes the
invalid-document error path and yields the error placeholder instead. -/
theorem claim_C5_short_input_unchanged (text : String) :
    (text ≠ "" → (sentenceList text).length ≤ 3 → summarizeLocalText text = text) ∧
    (text ≠ "" → text.length < 100 → summarizeLocalText text = text) ∧
    ((sentenceList text).length ≤ 3 → extractSentences text 3 = text) ∧
    summarizeLocalText "" =
      "Error generating summary: Invalid document format: no valid text found to summarize" := by
  have hext : (sentenceList text).length ≤ 3 → extractSentences text 3 = text := by
    intro h
    unfold extractSentences
    rw [if_pos h]
  have hsum100 : text ≠ "" → text.length < 100 → summarizeLocalText text = text := by
    intro hne h
    unfold summarizeLocalText
    rw [if_neg hne, if_pos h]
  refine ⟨?_, hsum100, hext, rfl⟩
  intro hne h
  by_cases hl : text.length < 100
  · exact hsum100 hne hl
  · unfold summarizeLocalText
    rw [if_neg hne, if_neg hl]
    exact hext h

/-- Witness for the amended C5 at concrete inputs. -/
theorem claim_C5_witness :
    (("Ab. Cd" : String) ≠ "" ∧ (sentenceList "Ab. Cd").length ≤ 3 ∧
      ("Hi there." : String) ≠ "" ∧ "Hi there.".length < 100) ∧
    summarizeLocalText "Ab. Cd" = "Ab. Cd" ∧
    summarizeLocalText "Hi there." = "Hi there." ∧
    extractSentences "Ab. Cd" 3 = "Ab. Cd" :=
  ⟨⟨by decide, by decide, by decide, by decide⟩,
    (claim_C5_short_input_unchanged "Ab. Cd").1 (by decide) (by decide),
    (claim_C5_short_input_unchanged "Hi there.").2.1 (by decide) (by decide),
    (claim_C5_short_input_unchanged "Ab. Cd").2.2.1 (by decide)⟩

/-- C6: on a text with more than three sentences, extractSentences scores
each sentence as (number of sentences minus zero-based position) plus
(word count divided by 20), keeps three sentences whose scores dominate
every dropped sentence, re-orders them by original position and joins
them with single spaces. -/
theorem claim_C6_top3_selection (text : String)
    (h : 3 < (sentenceList text).length) :
    scoredSentences text =
      (sentenceList text).enum.map (fun p =>
        { text := jsTrim p.2
          score := (((sentenceList text).length : ℚ) - (p.1 : ℚ)) +
            (wordCount p.2 : ℚ) / 20
          index := p.1 }) ∧
    ∃ kept dropped ordered : List Scored,
      (scoredSentences text).Perm (kept ++ dropped) ∧
      kept.length = 3 ∧
      (∀ a ∈ kept, ∀ b ∈ dropped, b.score ≤ a.score) ∧
      ordered.Perm kept ∧
      List.Pairwise (fun a b : Scored => a.index ≤ b.index) ordered ∧
      extractSentences text 3 = joinSp (ordered.map Scored.text) :=
  ⟨rfl, extractSentences_top3 text h⟩

/-- Witness for C6 at a concrete five-sentence text. -/
theorem claim_C6_witness :
    3 < (sentenceList sampleFiveSentences).length ∧
    (scoredSentences sampleFiveSentences =
      (sentenceList sampleFiveSentences).enum.map (fun p =>
        { text := jsTrim p.2
          score := (((sentenceList sampleFiveSentences).length : ℚ) - (p.1 : ℚ)) +
            (wordCount p.2 : ℚ) / 20
          index := p.1 }) ∧
    ∃ kept dropped ordered : List Scored,
      (scoredSentences sampleFiveSentences).Perm (kept ++ dropped) ∧
      kept.length = 3 ∧
      (∀ a ∈ kept, ∀ b ∈ dropped, b.score ≤ a.score) ∧
      ordered.Perm kept ∧
      List.Pairwise (fun a b : Scored => a.index ≤ b.index) ordered ∧
      extractSentences sampleFiveSentences 3 = joinSp (ordered.map Scored.text)) :=
  ⟨by decide, claim_C6_top3_selection sampleFiveSentences (by decide)⟩

/-- C7, counterexample: for a document whose summary and title are both
empty, the selected text is the empty string (shorter than 50), yet
generateSummary returns the fixed placeholder, not the text verbatim. -/
theorem claim_C7_counterexample :
    (textToSummarize emptyDoc).length < 50 ∧
    generateSummary llmOk emptyDoc ≠ textToSummarize emptyDoc := by
  constructor
  · decide
  · decide

/-- C7 (amended): for a document whose selected text is shorter than 50
characters, generateSummary performs no remote call and returns the text
verbatim when it is non-empty, and the placeholder string when it is
empty. -/
theorem claim_C7_short_text_no_remote (llm : LlmOracle) (doc : Paper)
    (h : (textToSummarize doc).length < 50) :
    generateSummaryT llm doc =
      (if textToSummarize doc = "" then "No content available to summarize."
        else textToSummarize doc, false) := by
  unfold generateSummaryT
  rw [if_pos h]

/-- Witness for the amended C7 at a concrete short document. -/
theorem claim_C7_witness :
    (textToSummarize shortDoc).length < 50 ∧
    generateSummaryT llmDown shortDoc =
      (if textToSummarize shortDoc = "" then "No content available to summarize."
        else textToSummarize shortDoc, false) :=
  ⟨by decide, claim_C7_short_text_no_remote llmDown shortDoc (by decide)⟩

/-- C8: a failure of the remote call for one document is caught and
replaced by a placeholder naming that document title, the batch keeps one
summary per document, and the summaries of sibling documents are
unaffected by how the failing call behaves. -/
theorem claim_C8_failure_isolation (llm : LlmOracle) (docs : List Paper)
    (i : Nat) (e : String) (hi : i < docs.length)
    (hlen : 50 ≤ (textToSummarize (docs.getD i defaultPaper)).length)
    (hfail : llm (textToSummarize (docs.getD i defaultPaper)) = .error e) :
    (analyzeDocuments llm docs).getD i "" =
      "Error generating summary for \"" ++ (docs.getD i defaultPaper).title ++ "\"." ∧
    (analyzeDocuments llm docs).length = docs.length ∧
    (∀ llm2 : LlmOracle,
      (∀ t, t ≠ textToSummarize (docs.getD i defaultPaper) → llm2 t = llm t) →
      ∀ j, j < docs.length →
        textToSummarize (docs.getD j defaultPaper) ≠
          textToSummarize (docs.getD i defaultPaper) →
        (analyzeDocuments llm2 docs).getD j "" = (analyzeDocuments llm docs).getD j "") := by
  have hmap : ∀ (lo : LlmOracle) (j : Nat), j < docs.length →
      (analyzeDocuments lo docs).getD j "" = generateSummary lo (docs.getD j defaultPaper) := by
    intro lo j hj
    exact getD_map_of_lt (fun d => generateSummary lo d) docs j defaultPaper "" hj
  refine ⟨?_, ?_, ?_⟩
  · rw [hmap llm i hi]
    simp only [generateSummary, generateSummaryT]
    rw [if_neg (by omega), hfail]
  · simp [analyzeDocuments]
  · intro llm2 hagree j hj hne
    rw [hmap llm2 j hj, hmap llm j hj]
    have hT : generateSummaryT llm2 (docs.getD j defaultPaper) =
        generateSummaryT llm (docs.getD j defaultPaper) := by
      simp only [generateSummaryT]
      by_cases hlt : (textToSummarize (docs.getD j defaultPaper)).length < 50
      · rw [if_pos hlt, if_pos hlt]
      · rw [if_neg hlt, if_neg hlt, hagree _ hne]
    simp only [generateSummary]
    rw [hT]

/-- Witness for C8: a two-document batch where the remote call for the
first document fails and the second document is summarized normally. -/
theorem claim_C8_witness :
    0 < ([longDoc, shortDoc] : List Paper).length ∧
    50 ≤ (textToSummarize (([longDoc, shortDoc] : List Paper).getD 0 defaultPaper)).length ∧
    llmDown (textToSummarize (([longDoc, shortDoc] : List Paper).getD 0 defaultPaper)) =
      .error "service unavailable" ∧
    ((analyzeDocuments llmDown [longDoc, shortDoc]).getD 0 "" =
      "Error generating summary for \"" ++
        (([longDoc, shortDoc] : List Paper).getD 0 defaultPaper).title ++ "\"." ∧
    (analyzeDocuments llmDown [longDoc, shortDoc]).length =
      ([longDoc, shortDoc] : List Paper).length ∧
    (∀ llm2 : LlmOracle,
      (∀ t, t ≠ textToSummarize (([longDoc, shortDoc] : List Paper).getD 0 defaultPaper) →
        llm2 t = llmDown t) →
      ∀ j, j < ([longDoc, shortDoc] : List Paper).length →
        textToSummarize (([longDoc, shortDoc] : List Paper).getD j defaultPaper) ≠
          textToSummarize (([longDoc, shortDoc] : List Paper).getD 0 defaultPaper) →
        (analyzeDocuments llm2 [longDoc, shortDoc]).getD j "" =
          (analyzeDocuments llmDown [longDoc, shortDoc]).getD j "")) :=
  ⟨by decide, by decide, rfl,
    claim_C8_failure_isolation llmDown [longDoc, shortDoc] 0 "service unavailable"
      (by decide) (by decide) rfl⟩

/-- C9, counterexample: the handler computes (1 - distance).toFixed(2)
without clamping, so a cache hit at distance 2 is reported with
relevanceScore -1, outside the claimed range 0..1. -/
theorem claim_C9_counterexample :
    (cacheHitToPaper farHit).relevanceScore = some (-1 : ℚ) ∧ ¬ (0 ≤ (-1 : ℚ)) := by
  constructor
  · show some (round2 (1 - farHit.distance)) = some (-1 : ℚ)
    have h1 : (1 : ℚ) - farHit.distance = -1 := by norm_num [farHit]
    rw [h1]
    unfold round2
    have h2 : (100 : ℚ) * (-1) + 1 / 2 = -199 / 2 := by norm_num
    rw [h2]
    have h3 : ⌊(-199 : ℚ) / 2⌋ = -100 := by
      rw [Int.floor_eq_iff]
      constructor <;> norm_num
    rw [h3]
    norm_num
  · norm_num

/-- C9 (amended): a cache-hit paper carries relevanceScore equal to
(1 - distance) rounded to two decimal places, and this value lies in 0..1
whenever the reported distance lies in 0..1; for distances outside that
range no clamping is performed. -/
theorem claim_C9_relevance_score (h : CacheHit) :
    (cacheHitToPaper h).relevanceScore = some (round2 (1 - h.distance)) ∧
    (0 ≤ h.distance → h.distance ≤ 1 →
      0 ≤ round2 (1 - h.distance) ∧ round2 (1 - h.distance) ≤ 1) := by
  refine ⟨rfl, ?_⟩
  intro h0 h1c
  have hlb : (0 : ℚ) ≤ 100 * (1 - h.distance) + 1 / 2 := by linarith
  have hub : 100 * (1 - h.distance) + 1 / 2 < 101 := by linarith
  have hfl : (0 : ℤ) ≤ ⌊100 * (1 - h.distance) + 1 / 2⌋ := by
    rw [Int.le_floor]
    exact_mod_cast hlb
  have hfu : ⌊100 * (1 - h.distance) + 1 / 2⌋ < 101 := by
    rw [Int.floor_lt]
    exact_mod_cast hub
  unfold round2
  constructor
  · apply div_nonneg _ (by norm_num)
    exact_mod_cast hfl
  · rw [div_le_one (by norm_num)]
    have h100 : ⌊100 * (1 - h.distance) + 1 / 2⌋ ≤ 100 := by omega
    exact_mod_cast h100

/-- Witness for the amended C9 at distance 1/2. -/
theorem claim_C9_witness :
    (0 : ℚ) ≤ midHit.distance ∧ midHit.distance ≤ 1 ∧
    ((cacheHitToPaper midHit).relevanceScore = some (round2 (1 - midHit.distance)) ∧
      (0 ≤ round2 (1 - midHit.distance) ∧ round2 (1 - midHit.distance) ≤ 1)) :=
  ⟨by norm_num [midHit], by norm_num [midHit],
    ⟨(claim_C9_relevance_score midHit).1,
      (claim_C9_relevance_score midHit).2 (by norm_num [midHit]) (by norm_num [midHit])⟩⟩

/-- C10: fetchPapers throws on a missing or non-string query and on a
query trimming to fewer than 2 characters, and under the precondition
established by the HTTP validator (a trimmed query of 2 to 200 characters)
this throwing branch is unreachable and fetchPapers returns the
source-filtered results. -/
theorem claim_C10_fetch_validation (src : String) (ax pm : List Paper) :
    (∀ q : Option JsVal, (q = none ∨ q = some .nonString) →
      fetchPapers q src ax pm = .error "Invalid query parameter") ∧
    (∀ s : String, (jsTrim s).length < 2 →
      ∃ msg, fetchPapers (some (.str s)) src ax pm = .error msg) ∧
    (∀ (b : ReqBody) (q : String), validateSearchInput b = .ok q →
      fetchPapers (some (.str q)) src ax pm = .ok (selectedPapers src ax pm)) := by
  refine ⟨?_, ?_, ?_⟩
  · rintro q (rfl | rfl) <;> rfl
  · intro s hs
    by_cases hempty : s = ""
    · exact ⟨"Invalid query parameter", by rw [hempty]; rfl⟩
    · refine ⟨"Query must be at least 2 characters long", ?_⟩
      simp only [fetchPapers]
      rw [if_neg hempty, if_pos hs]
  · intro b q hv
    exact fetchPapers_ok_of_validate hv src ax pm

/-- Witness for C10 at concrete queries. -/
theorem claim_C10_witness :
    ((jsTrim " a ").length < 2 ∧
      (∃ msg, fetchPapers (some (.str " a ")) "all" [] [] = .error msg)) ∧
    (fetchPapers none "all" [] [] = .error "Invalid query parameter") ∧
    (validateSearchInput validBody = .ok "quantum computing" ∧
      fetchPapers (some (.str "quantum computing")) "all" [] [] =
        .ok (selectedPapers "all" [] [])) :=
  ⟨⟨by decide, (claim_C10_fetch_validation "all" [] []).2.1 " a " (by decide)⟩,
    (claim_C10_fetch_validation "all" [] []).1 none (Or.inl rfl),
    ⟨by decide, (claim_C10_fetch_validation "all" [] []).2.2 validBody
      "quantum computing" (by decide)⟩⟩

/-- C1: for every request accepted by the validator, the response pairs
papers and summaries by position: the lists have equal length, each
cache-hit position carries the stored document as both the paper summary
and the response summary, and each position past fromCache carries the
generateSummary output for exactly the paper at that position. -/
theorem claim_C1_pairing (b : ReqBody) (q : String)
    (hv : validateSearchInput b = .ok q)
    (init : Bool) (cq : Except Unit (List CacheHit)) (ca : Except Unit Unit)
    (ax pm : List Paper) (llm : LlmOracle) :
    ∃ sr, (searchEndpoint b init cq ca ax pm llm).1 = .ok sr ∧
      sr.papers.length = sr.summaries.length ∧
      (∀ i, i < sr.fromCache →
        sr.summaries.getD i "" = (sr.papers.getD i defaultPaper).summary) ∧
      (∀ i, sr.fromCache ≤ i → i < sr.papers.length →
        sr.summaries.getD i "" = generateSummary llm (sr.papers.getD i defaultPaper)) := by
  have hsum2 : (runSearch init cq (selectedPapers (effectiveSource b) ax pm) llm).summaries =
      (cacheHits init cq).map CacheHit.document ++
        (newPapersOf ((cacheHits init cq).map cacheHitToPaper)
          (selectedPapers (effectiveSource b) ax pm)).map
          (fun p => generateSummary llm p) := by
    rw [runSearch_summaries, newSummaries_eq]
  have hpap := runSearch_papers init cq (selectedPapers (effectiveSource b) ax pm) llm
  have hfc := runSearch_fromCache init cq (selectedPapers (effectiveSource b) ax pm) llm
  refine ⟨_, searchEndpoint_ok_of_validate hv init cq ca ax pm llm, ?_, ?_, ?_⟩
  · rw [hpap, hsum2]
    simp [List.length_append, List.length_map]
  · intro i hi
    rw [hfc, List.length_map] at hi
    rw [hsum2, hpap]
    rw [List.getD_append _ _ _ i (by simpa using hi),
      List.getD_append _ _ _ i (by simpa using hi)]
    rw [getD_map_of_lt CacheHit.document (cacheHits init cq) i defaultCacheHit "" hi,
      getD_map_of_lt cacheHitToPaper (cacheHits init cq) i defaultCacheHit defaultPaper hi]
    rfl
  · intro i hge hlt
    rw [hfc, List.length_map] at hge
    rw [hpap, List.length_append, List.length_map] at hlt
    rw [hsum2, hpap]
    rw [List.getD_append_right _ _ _ i (by simpa using hge),
      List.getD_append_right _ _ _ i (by simpa using hge)]
    simp only [List.length_map]
    have hk : i - (cacheHits init cq).length <
        (newPapersOf ((cacheHits init cq).map cacheHitToPaper)
          (selectedPapers (effectiveSource b) ax pm)).length := by
      omega
    rw [getD_map_of_lt (fun p => generateSummary llm p) _ _ defaultPaper "" hk]

/-- Witness for C1 at a concrete valid request, with one cache hit and one
fetched paper. -/
theorem claim_C1_witness :
    validateSearchInput validBody = .ok "quantum computing" ∧
    (∃ sr, (searchEndpoint validBody true (.ok [dupHit]) (.ok ()) [longDoc] [] llmOk).1 = .ok sr ∧
      sr.papers.length = sr.summaries.length ∧
      (∀ i, i < sr.fromCache →
        sr.summaries.getD i "" = (sr.papers.getD i defaultPaper).summary) ∧
      (∀ i, sr.fromCache ≤ i → i < sr.papers.length →
        sr.summaries.getD i "" = generateSummary llmOk (sr.papers.getD i defaultPaper))) :=
  ⟨by decide, claim_C1_pairing validBody "quantum computing" (by decide)
    true (.ok [dupHit]) (.ok ()) [longDoc] [] llmOk⟩

/-- C2, counterexample: a raw query of 201 characters whose trimmed form
is the 2-character string aa passes validation, so the endpoint does not
return a 400 and performs external calls, refuting the claim for raw
query lengths above 200. -/
theorem claim_C2_counterexample :
    200 < longPaddedQuery.length ∧
    (searchEndpoint longPaddedBody false (.error ()) (.error ()) [] [] llmDown).1.isClientError
      = false ∧
    (searchEndpoint longPaddedBody false (.error ()) (.error ()) [] [] llmDown).2 ≠ [] := by
  refine ⟨by decide, by decide, by decide⟩

/-- C2 (amended): for every query whose trimmed form is shorter than 2 or
longer than 200 characters, the endpoint returns a 400 client error and
performs no external calls; the validator measures the query after
trimming, so raw lengths above 200 are not rejected in general. -/
theorem claim_C2_invalid_length_rejected (b : ReqBody) (s : String)
    (hq : b.query = some (.str s))
    (hlen : (jsTrim s).length < 2 ∨ 200 < (jsTrim s).length)
    (init : Bool) (cq : Except Unit (List CacheHit)) (ca : Except Unit Unit)
    (ax pm : List Paper) (llm : LlmOracle) :
    ∃ msg, searchEndpoint b init cq ca ax pm llm = (.clientError 400 msg, []) := by
  obtain ⟨bq, bs⟩ := b
  have hq2 : bq = some (.str s) := hq
  subst hq2
  obtain ⟨msg, hv⟩ := @validateSearchInput_error_of_len bs s hlen
  exact ⟨msg, by simp only [searchEndpoint, hv]⟩

/-- Witness for the amended C2 at a one-character query. -/
theorem claim_C2_witness :
    (jsTrim "x").length < 2 ∧
    (∃ msg, searchEndpoint { query := some (.str "x"), source := none } false
      (.ok []) (.ok ()) [] [] llmOk = (.clientError 400 msg, [])) :=
  ⟨by decide, claim_C2_invalid_length_rejected _ "x" rfl (Or.inl (by decide))
    false (.ok []) (.ok ()) [] [] llmOk⟩

/-- C3: when ChromaDB is uninitialized or its query fails (and whatever
the insert outcome is), a validated request still yields a 200 response
assembled purely from the freshly fetched papers, each paired with its
fresh summary, and fromCache is 0. -/
theorem claim_C3_cache_failure_tolerated (b : ReqBody) (q : String)
    (hv : validateSearchInput b = .ok q)
    (init : Bool) (cq : Except Unit (List CacheHit))
    (hfail : init = false ∨ cq = .error ())
    (ca : Except Unit Unit) (ax pm : List Paper) (llm : LlmOracle) :
    ∃ sr, (searchEndpoint b init cq ca ax pm llm).1 = .ok sr ∧
      sr.fromCache = 0 ∧
      sr.papers = selectedPapers (effectiveSource b) ax pm ∧
      sr.summaries = sr.papers.map (fun p => generateSummary llm p) ∧
      sr.newlyFetched = sr.papers.length := by
  have hce := cacheHits_empty hfail
  refine ⟨runSearch init cq (selectedPapers (effectiveSource b) ax pm) llm,
    searchEndpoint_ok_of_validate hv init cq ca ax pm llm, ?_, ?_, ?_, ?_⟩
  · rw [runSearch_fromCache, hce]
    rfl
  · rw [runSearch_papers, hce]
    simp only [List.map_nil, List.nil_append]
    exact newPapersOf_nil _
  · rw [runSearch_summaries, newSummaries_eq, runSearch_papers, hce]
    simp only [List.map_nil, List.nil_append]
  · rw [runSearch_newlyFetched, runSearch_papers, hce]
    simp only [List.map_nil, List.nil_append]

/-- Witness for C3 at a concrete valid request with a failing cache. -/
theorem claim_C3_witness :
    validateSearchInput validBody = .ok "quantum computing" ∧
    (∃ sr, (searchEndpoint validBody false (.error ()) (.error ()) [longDoc] [] llmOk).1
        = .ok sr ∧
      sr.fromCache = 0 ∧
      sr.papers = selectedPapers (effectiveSource validBody) [longDoc] [] ∧
      sr.summaries = sr.papers.map (fun p => generateSummary llmOk p) ∧
      sr.newlyFetched = sr.papers.length) :=
  ⟨by decide, claim_C3_cache_failure_tolerated validBody "quantum computing" (by decide)
    false (.error ()) (Or.inl rfl) (.error ()) [longDoc] [] llmOk⟩

/-- C4, counterexample: when the cache itself returns two hits with the
same title, a matching fetched paper is dropped, yet the title still
appears twice in the returned papers, refuting the claim as stated. -/
theorem claim_C4_counterexample :
    dupFetched ∈ ([dupFetched] : List Paper) ∧
    normTitle dupFetched.title ∈
      ([dupHit, dupHit] : List CacheHit).map (fun h => normTitle h.title) ∧
    ((runSearch true (.ok [dupHit, dupHit]) [dupFetched] llmOk).papers.countP
      (fun p => decide (normTitle p.title = normTitle dupFetched.title))) = 2 := by
  refine ⟨by decide, by decide, by decide⟩

/-- C4 (amended): a fetched paper whose normalized title matches a cache
hit is excluded from the de-duplicated (newly fetched) part of the
response, and its normalized title occurs in the returned papers exactly
as often as among the cache hits; in particular it appears only once when
the cache hits contain it once. -/
theorem claim_C4_dedup (hits : List CacheHit) (fetched : List Paper)
    (llm : LlmOracle) (fp : Paper) (hmem : fp ∈ fetched)
    (hdup : normTitle fp.title ∈ hits.map (fun h => normTitle h.title)) :
    ((runSearch true (.ok hits) fetched llm).papers.drop
        (runSearch true (.ok hits) fetched llm).fromCache).countP
      (fun p => decide (normTitle p.title = normTitle fp.title)) = 0 ∧
    (runSearch true (.ok hits) fetched llm).papers.countP
      (fun p => decide (normTitle p.title = normTitle fp.title)) =
      hits.countP (fun h => decide (normTitle h.title = normTitle fp.title)) := by
  have hch : cacheHits true (.ok hits) = hits := rfl
  have hdrop : (runSearch true (.ok hits) fetched llm).papers.drop
      (runSearch true (.ok hits) fetched llm).fromCache =
      newPapersOf (hits.map cacheHitToPaper) fetched := by
    rw [runSearch_papers, runSearch_fromCache, hch]
    exact List.drop_left _ _
  have hex : (hits.map cacheHitToPaper).map (fun p => normTitle p.title) =
      hits.map (fun h => normTitle h.title) := by
    rw [List.map_map]
    rfl
  have hcount0 : (newPapersOf (hits.map cacheHitToPaper) fetched).countP
      (fun p => decide (normTitle p.title = normTitle fp.title)) = 0 := by
    rw [List.countP_eq_zero]
    intro a ha
    simp only [newPapersOf] at ha
    have hfa := (List.mem_filter.mp ha).2
    simp only [decide_eq_true_eq]
    intro heq
    rw [Bool.not_eq_true'] at hfa
    have hmem2 : List.contains
        ((hits.map cacheHitToPaper).map (fun p => normTitle p.title))
        (normTitle a.title) = true := by
      rw [hex, heq]
      simpa using hdup
    rw [hmem2] at hfa
    cases hfa
  constructor
  · rw [hdrop]
    exact hcount0
  · rw [runSearch_papers, hch, List.countP_append, hcount0, Nat.add_zero,
      List.countP_map]
    rfl

/-- Witness for the amended C4 at one cache hit and one matching fetched
paper. -/
theorem claim_C4_witness :
    dupFetched ∈ ([dupFetched] : List Paper) ∧
    normTitle dupFetched.title ∈
      ([dupHit] : List CacheHit).map (fun h => normTitle h.title) ∧
    (((runSearch true (.ok [dupHit]) [dupFetched] llmOk).papers.drop
        (runSearch true (.ok [dupHit]) [dupFetched] llmOk).fromCache).countP
      (fun p => decide (normTitle p.title = normTitle dupFetched.title)) = 0 ∧
    (runSearch true (.ok [dupHit]) [dupFetched] llmOk).papers.countP
      (fun p => decide (normTitle p.title = normTitle dupFetched.title)) =
      ([dupHit] : List CacheHit).countP
        (fun h => decide (normTitle h.title = normTitle dupFetched.title))) :=
  ⟨by decide, by decide,
    claim_C4_dedup [dupHit] [dupFetched] llmOk dupFetched (by decide) (by decide)⟩

end AiResearchAgent
